import Mathlib

/-!
Verification of the DDAS (Distributed Duplicate Asset Scanner) decision core.

The repository ships the dashboard TypeScript (src/dashboard/...) together with
architecture documentation for the backend and the agent; the Python services
(match pipeline, scoring, decision engine, local cache) are described in the
documentation but their implementation files are not part of the repository
snapshot.  Definitions below therefore fall into two groups:

* embeddings of code that is present (the dashboard apiClient request methods
  and the mockSettings configuration record), translated line by line; and
* models of the missing decision core, each marked `Modelled from the spec:`,
  faithful to the specification text (sections 3, 4.2, 4.3, 4.4, and 7).

Scores, confidences, thresholds and weights are rationals; timestamps are
naturals; content hashes and organization scopes are naturals.
-/

namespace DDAS

/-- Modelled from the spec: classification stored on a `Fingerprint`
(UNKNOWN / BENIGN / MALICIOUS), spec data model section. The backend model
definitions (backend/app/db/models.py) are absent from the snapshot. -/
inductive Classification where
  | UNKNOWN
  | BENIGN
  | MALICIOUS
deriving DecidableEq, Repr

/-- Decision outcome enum, as used across the dashboard types
(src/dashboard/app/lib/types.ts, `decision: "ALLOW" | "WARN" | "BLOCK"`). -/
inductive DecisionKind where
  | ALLOW
  | WARN
  | BLOCK
deriving DecidableEq, Repr

/-- Modelled from the spec: the closed reason-code variant attached to a
Decision (spec sections 4.2, 4.3 and design notes); the backend
decision_engine.py carrying these codes is absent from the snapshot. -/
inductive ReasonCode where
  | SCORED
  | EXACT_MALICIOUS
  | EXACT_BENIGN
  | EXACT_MATCH
  | BACKEND_UNREACHABLE
deriving DecidableEq, Repr

/-- Modelled from the spec: a previously indexed file record (spec data
model section); backend ORM model absent from the snapshot. -/
structure Fingerprint where
  contentHash : Nat
  classification : Classification
  firstSeen : Nat
  orgScope : Nat
deriving DecidableEq, Repr

/-- Modelled from the spec: the input identity of a file under evaluation
(content hash, optional fuzzy signature, optional embedding vector, byte
size, organization scope). -/
structure Descriptor where
  contentHash : Nat
  fuzzySignature : Option Nat
  embedding : Option (List ℚ)
  sizeBytes : Nat
  orgScope : Nat
deriving DecidableEq

/-- Modelled from the spec: the per-request Signal set, at most one Signal
per method, order-irrelevant (spec data model section).  A present EXACT
Signal carries the matched `Fingerprint`; the weighted methods carry their
normalized score in [0,1].  `none` is the absence flag: the method failed,
timed out, or found nothing. -/
structure Signals where
  exact : Option Fingerprint
  fuzzy : Option ℚ
  semantic : Option ℚ
  size : Option ℚ
deriving DecidableEq

/-- The weighted (non-exact) methods of the ScoringEngine: fuzzy weight,
semantic weight, size-similarity weight (spec section 4.2). -/
inductive WMethod where
  | FUZZY
  | SEMANTIC
  | SIZE
deriving DecidableEq, Repr

/-- Score slot of one weighted method inside a Signal set. -/
def Signals.getScore (s : Signals) : WMethod → Option ℚ
  | .FUZZY => s.fuzzy
  | .SEMANTIC => s.semantic
  | .SIZE => s.size

/-- Replace the score of one weighted method, leaving everything else
(including the EXACT slot) unchanged. -/
def Signals.setScore (s : Signals) (m : WMethod) (v : ℚ) : Signals :=
  match m with
  | .FUZZY => { s with fuzzy := some v }
  | .SEMANTIC => { s with semantic := some v }
  | .SIZE => { s with size := some v }

/-- Modelled from the spec: named, validated per-method weights of the
ScoringEngine (spec section 4.2); the backend configuration structure is
absent from the snapshot. -/
structure Weights where
  fuzzy : ℚ
  semantic : ℚ
  size : ℚ
deriving DecidableEq

/-- Configuration-load validation for weights: non-negative (finiteness is
automatic over the rationals), spec section 4.2. -/
def Weights.valid (w : Weights) : Prop :=
  0 ≤ w.fuzzy ∧ 0 ≤ w.semantic ∧ 0 ≤ w.size

/-- An absent signal contributes zero to the weighted sum. -/
def optScore (o : Option ℚ) : ℚ := o.getD 0

/-- Modelled from the spec: the ScoringEngine (spec section 4.2).  If an
EXACT Signal is present, confidence is 1.0; otherwise confidence is the
weighted sum of the present signal scores, absent signals contributing
zero.  The backend decision_engine.py / scoring code is absent from the
snapshot. -/
def ScoringEngine.score (w : Weights) (s : Signals) : ℚ :=
  match s.exact with
  | some _ => 1
  | none =>
      w.fuzzy * optScore s.fuzzy + w.semantic * optScore s.semantic +
        w.size * optScore s.size

/-- DecisionEngine threshold configuration `{blockThreshold, warnThreshold}`
(spec section 4.3); field names follow the dashboard Settings contract
(src/dashboard/app/lib/types.ts). -/
structure Config where
  blockThreshold : ℚ
  warnThreshold : ℚ
deriving DecidableEq

/-- Modelled from the spec: the DecisionEngine confidence-to-band mapping
(spec section 4.3): confidence at or above blockThreshold gives BLOCK,
at or above warnThreshold gives WARN, below warnThreshold gives ALLOW;
bands are closed on their lower bound.  The implementation file is absent
from the snapshot. -/
def DecisionEngine.band (cfg : Config) (c : ℚ) : DecisionKind :=
  if cfg.blockThreshold ≤ c then .BLOCK
  else if cfg.warnThreshold ≤ c then .WARN
  else .ALLOW

/-- Modelled from the spec: the immutable Decision record (confidence,
decision enum, reason code); contributing signals and timestamp are carried
by the surrounding audit record and are not needed by the claims. -/
structure Decision where
  confidence : ℚ
  kind : DecisionKind
  reason : ReasonCode
deriving DecidableEq

/-- Modelled from the spec: on an exact match the stored classification is
decisive (spec section 4.2): MALICIOUS is a decisive risk signal, BENIGN a
decisive safe signal; an UNKNOWN classification falls back to the
threshold mapping at confidence 1.0. -/
def DecisionEngine.decideExact (cfg : Config) (cl : Classification) : Decision :=
  match cl with
  | .MALICIOUS => ⟨1, .BLOCK, .EXACT_MALICIOUS⟩
  | .BENIGN => ⟨1, .ALLOW, .EXACT_BENIGN⟩
  | .UNKNOWN => ⟨1, DecisionEngine.band cfg 1, .EXACT_MATCH⟩

/-- Modelled from the spec: scoring plus decision mapping on one Signal set:
exact short-circuit when an EXACT Signal is present, weighted-sum scoring
and threshold banding otherwise. -/
def decideFromSignals (cfg : Config) (w : Weights) (s : Signals) : Decision :=
  match s.exact with
  | some fp => DecisionEngine.decideExact cfg fp.classification
  | none =>
      let c := ScoringEngine.score w s
      ⟨c, DecisionEngine.band cfg c, .SCORED⟩

/-- Modelled from the spec: outcome of one collaborator method lookup
(spec sections 4.1 and 7): the collaborator was unreachable or timed out,
was reachable but found nothing, or returned a match with a score. -/
inductive LookupOutcome where
  | unreachable
  | noMatch
  | matched (fp : Fingerprint) (score : ℚ)
deriving DecidableEq

/-- The three per-method lookup outcomes of one MatchOrchestrator run. -/
structure Outcomes where
  exact : LookupOutcome
  fuzzy : LookupOutcome
  semantic : LookupOutcome
deriving DecidableEq

/-- Whether this lookup outcome is collaborator unreachability. -/
def LookupOutcome.isUnreachable : LookupOutcome → Bool
  | .unreachable => true
  | _ => false

/-- `BackendUnreachable` condition (spec section 7): all method lookups
failed, as opposed to reachable lookups returning no match. -/
def allUnreachable (o : Outcomes) : Bool :=
  o.exact.isUnreachable && o.fuzzy.isUnreachable && o.semantic.isUnreachable

/-- Modelled from the spec: the Signal set gathered by the MatchOrchestrator
from the three lookups; an errored or empty lookup is recorded as absent,
not as a zero score (spec section 4.1). -/
def signalsOfOutcomes (o : Outcomes) : Signals where
  exact := match o.exact with
    | .matched fp _ => some fp
    | _ => none
  fuzzy := match o.fuzzy with
    | .matched _ sc => some sc
    | _ => none
  semantic := match o.semantic with
    | .matched _ sc => some sc
    | _ => none
  size := none

/-- Cache key: (content hash, organization scope), spec data model. -/
structure Key where
  hash : Nat
  org : Nat
deriving DecidableEq

/-- Snapshot of the last Decision for a key plus its expiry timestamp. -/
structure CacheEntry where
  decision : Decision
  expiry : Nat
deriving DecidableEq

/-- Modelled from the spec: the fail-closed Decision, BLOCK with reason
BACKEND_UNREACHABLE (spec section 4.3). -/
def failClosed : Decision := ⟨0, .BLOCK, .BACKEND_UNREACHABLE⟩

/-- Cache key derived from a request Descriptor. -/
def keyOf (d : Descriptor) : Key := ⟨d.contentHash, d.orgScope⟩

/-- Modelled from the spec: one decision request as a total function.  If
every collaborator lookup was unreachable, a valid unexpired cache entry is
served when one exists and otherwise the fail-closed BLOCK Decision is
produced (spec section 4.3); with at least one collaborator reachable the
gathered signals are scored and banded.  Totality of this function is the
no-exception guarantee of spec section 7. -/
def pipeline (cfg : Config) (w : Weights) (cache : Key → Option CacheEntry)
    (now : Nat) (k : Key) (o : Outcomes) : Decision :=
  if allUnreachable o then
    match cache k with
    | some e => if now < e.expiry then e.decision else failClosed
    | none => failClosed
  else
    decideFromSignals cfg w (signalsOfOutcomes o)

/-- One decision request for a Descriptor. -/
def pipelineRun (cfg : Config) (w : Weights) (cache : Key → Option CacheEntry)
    (now : Nat) (d : Descriptor) (o : Outcomes) : Decision :=
  pipeline cfg w cache now (keyOf d) o

/-- Settings contract of the dashboard
(src/dashboard/app/lib/types.ts, interface Settings). -/
structure Settings where
  fuzzyThreshold : ℚ
  semanticThreshold : ℚ
  blockThreshold : ℚ
  warnThreshold : ℚ
  maxEventsPerDay : Nat
deriving DecidableEq

/-- `mockSettings` from src/dashboard/app/lib/mock-data.ts: fuzzyThreshold
0.70, semanticThreshold 0.65, blockThreshold 0.90, warnThreshold 0.70,
maxEventsPerDay 10000. -/
def mockSettings : Settings := ⟨0.70, 0.65, 0.90, 0.70, 10000⟩

/-- DecisionEngine configuration drawn from `mockSettings`. -/
def mockConfig : Config := ⟨mockSettings.blockThreshold, mockSettings.warnThreshold⟩

/-- The end-to-end scenario weights {fuzzy 0.5, semantic 0.3, size 0.2}. -/
def mockWeights : Weights := ⟨0.5, 0.3, 0.2⟩

/-- Modelled from the spec: observable state of the LocalCache (spec section
4.4), whose implementation is absent from the snapshot.  `entries` is the
TTL-bounded decision cache, `inflight` records, per key, the callers
waiting on the single in-flight computation, `computeCount` counts
invocations of computeFn (one MatchOrchestrator run each), `auditCount`
counts AuditSink appends, and `results` records the Decision delivered to
each caller. -/
structure CacheState where
  entries : Key → Option CacheEntry
  inflight : Key → Option (List Nat)
  computeCount : Nat
  auditCount : Nat
  results : Nat → Option Decision

/-- Modelled from the spec: the atomic claim-or-join step of coalescing
(spec sections 4.4 and 6): the first caller for a key claims the
computation (invoking computeFn exactly once), later callers join the
waiter list of the in-flight computation. -/
def claimOrJoin (k : Key) (caller : Nat) (s : CacheState) : CacheState :=
  match s.inflight k with
  | some ws =>
      { s with inflight := fun k2 => if k2 = k then some (caller :: ws) else s.inflight k2 }
  | none =>
      { s with
        inflight := fun k2 => if k2 = k then some [caller] else s.inflight k2,
        computeCount := s.computeCount + 1 }

/-- Modelled from the spec: the atomic start of `resolve(key, computeFn)`
(spec section 4.4).  A cache hit within TTL delivers the stored Decision
immediately without touching computeFn; an expired or missing entry claims
or joins the in-flight computation. -/
def resolveStart (now : Nat) (k : Key) (caller : Nat) (s : CacheState) : CacheState :=
  match s.entries k with
  | some e =>
      if now < e.expiry then
        { s with results := fun c => if c = caller then some e.decision else s.results c }
      else claimOrJoin k caller s
  | none => claimOrJoin k caller s

/-- Modelled from the spec: completion of the single in-flight computation
for a key: the computed Decision is delivered to every waiter, written to
the cache with a fresh TTL, and appended once to the AuditSink. -/
def resolveComplete (now ttl : Nat) (k : Key) (d : Decision) (s : CacheState) : CacheState :=
  match s.inflight k with
  | none => s
  | some ws =>
      { s with
        inflight := fun k2 => if k2 = k then none else s.inflight k2,
        entries := fun k2 => if k2 = k then some ⟨d, now + ttl⟩ else s.entries k2,
        results := fun c => if c ∈ ws then some d else s.results c,
        auditCount := s.auditCount + 1 }

/-- N concurrent resolve calls for the same key: the starts land in some
arbitrary order (the list), each an atomic step per spec section 5. -/
def startAll (now : Nat) (k : Key) (callers : List Nat) (s : CacheState) : CacheState :=
  callers.foldl (fun st c => resolveStart now k c st) s

/-- A LocalCache state with no entries, no in-flight computations, zero
counters and no delivered results. -/
def emptyCacheState : CacheState :=
  ⟨fun _ => none, fun _ => none, 0, 0, fun _ => none⟩

/-- A sample benign decision used as concrete computation output. -/
def sampleDecision : Decision := ⟨1, .ALLOW, .EXACT_BENIGN⟩

/-- A sample cache entry expiring at timestamp 100. -/
def sampleEntry : CacheEntry := ⟨sampleDecision, 100⟩

/-- A LocalCache state holding `sampleEntry` under every key. -/
def hitCacheState : CacheState :=
  ⟨fun _ => some sampleEntry, fun _ => none, 0, 0, fun _ => none⟩

/-- Modelled from the spec: state of the whole decision core — the
fingerprint corpus (keyed by content hash), the threshold configuration,
the scoring weights, the append-only audit log of Decisions, and the
LocalCache entries. -/
structure CoreState where
  fingerprints : Nat → Option Fingerprint
  cfg : Config
  weights : Weights
  log : List Decision
  cache : Key → Option CacheEntry

/-- Modelled from the spec: the operations that touch the core after a
Decision exists — a new decision request, a feedback override changing a
Fingerprint classification (spec data model and section 4.4 invalidation),
and a threshold configuration change (dashboard settings page). -/
inductive Op where
  | request (d : Descriptor) (o : Outcomes) (now ttl : Nat)
  | feedback (hash0 : Nat) (cl : Classification)
  | setThresholds (cfg2 : Config)

/-- Modelled from the spec: effect of one operation on the core state.  A
request appends exactly one freshly computed Decision to the audit log and
overwrites the cache entry for its key; a feedback override rewrites the
stored classification and evicts the cache entries for that hash, touching
no logged Decision; a threshold change only replaces the configuration. -/
def applyOp (s : CoreState) : Op → CoreState
  | .request d o now ttl =>
      let dec := pipelineRun s.cfg s.weights s.cache now d o
      { s with
        log := s.log ++ [dec],
        cache := fun k2 => if k2 = keyOf d then some ⟨dec, now + ttl⟩ else s.cache k2 }
  | .feedback hash0 cl =>
      { s with
        fingerprints := fun h2 =>
          if h2 = hash0 then (s.fingerprints hash0).map (fun fp => { fp with classification := cl })
          else s.fingerprints h2,
        cache := fun k2 => if k2.hash = hash0 then none else s.cache k2 }
  | .setThresholds cfg2 => { s with cfg := cfg2 }

/-- A sample core state used to instantiate closed corollaries. -/
def sampleCoreState : CoreState :=
  ⟨fun _ => none, mockConfig, mockWeights, [], fun _ => none⟩

/-- A sample request Descriptor. -/
def sampleDescriptor : Descriptor := ⟨42, none, none, 1000, 1⟩

/-- A sample malicious Fingerprint matched by the exact lookup. -/
def sampleFingerprint : Fingerprint := ⟨42, .MALICIOUS, 7, 1⟩

/-- A Signal set containing a present EXACT Signal next to fuzzy and
semantic scores. -/
def sampleSignals : Signals := ⟨some sampleFingerprint, some 0.2, some 0.9, none⟩

/-- A Signal set with no EXACT Signal: fuzzy and size present, semantic
absent. -/
def noExactSignals : Signals := ⟨none, some 0.3, none, some 0.5⟩

/-- Error text of an ApiErrorResponse (src/dashboard/app/lib/apiClient.ts).
String formatting is presentational; the embedding keeps each source of
text as a separate constructor: a field of the parsed error body, the
`HTTP status: statusText` fallback when the body fails to parse, the fixed
403 access-denied text, the message of a thrown Error, and the fixed
unknown-error text for a non-Error throw. -/
inductive ErrMsg where
  | fromBody (s : String)
  | httpStatus (status : Nat) (statusText : String)
  | accessDenied
  | exnMsg (s : String)
  | unknownErr
deriving DecidableEq

/-- `ApiErrorResponse` from src/dashboard/app/lib/apiClient.ts: optional
error, message and detail texts plus the HTTP status. -/
structure ApiErrorResponse where
  error : Option ErrMsg
  message : Option ErrMsg
  detail : Option ErrMsg
  status : Nat
deriving DecidableEq

/-- `ApiResponse<T>` from src/dashboard/app/lib/apiClient.ts. -/
structure ApiResponse (T : Type) where
  data : Option T
  error : Option ApiErrorResponse
  loading : Bool
deriving DecidableEq

/-- The error/message/detail fields read off a parsed JSON error body;
`none` models an absent or falsy field. -/
structure ErrorBody where
  error : Option String
  message : Option String
  detail : Option String
deriving DecidableEq

/-- JavaScript `a || b` on optional strings (absent or falsy on the left
falls through to the right). -/
def firstSome {α : Type} (a b : Option α) : Option α :=
  match a with
  | some x => some x
  | none => b

/-- Evaluation of one `fetch` call as observed by the request methods of
APIClient (src/dashboard/app/lib/apiClient.ts): the awaited chain threw (a
rejected fetch, or an ok response whose json() threw — both land in the
same catch block), or an ok response whose body parsed to the data, or a
non-ok response whose body parses to an error body or throws (`none`).
`threw` carries `some m` when the thrown value is an Error with message m,
`none` for a non-Error throw. -/
inductive FetchEval (T : Type) where
  | threw (msg : Option String)
  | okResp (data : T)
  | errResp (status : Nat) (statusText : String) (body : Option ErrorBody)

/-- `APIClient.handleError` from src/dashboard/app/lib/apiClient.ts lines
91-121: build an ApiErrorResponse with the response status; pull error and
message texts from the parsed body, or fall back to `HTTP status:
statusText` when the body fails to parse; 403 overrides the error text.
(The 401 branch clears the stored token and redirects — browser side
effects outside the returned value — and is not modelled.) -/
def APIClient.handleError (status : Nat) (statusText : String)
    (body : Option ErrorBody) : ApiErrorResponse :=
  let base : ApiErrorResponse :=
    match body with
    | some b =>
        ⟨(firstSome b.error (firstSome b.message b.detail)).map ErrMsg.fromBody,
         (firstSome b.message b.detail).map ErrMsg.fromBody, none, status⟩
    | none => ⟨some (ErrMsg.httpStatus status statusText), none, none, status⟩
  if status = 403 then { base with error := some ErrMsg.accessDenied } else base

/-- Shared request logic of `APIClient.get` / `post` / `put`
(src/dashboard/app/lib/apiClient.ts lines 126-201): an ok response yields
`{data, error: null, loading: false}`; a non-ok response yields
`handleError`'s ApiErrorResponse with the response status; a throw
anywhere in the try block is caught and yields status 500 with the Error
message (or the fixed unknown-error text). -/
def APIClient.request {T : Type} (f : FetchEval T) : ApiResponse T :=
  match f with
  | .okResp t => ⟨some t, none, false⟩
  | .errResp status statusText body =>
      ⟨none, some (APIClient.handleError status statusText body), false⟩
  | .threw msg =>
      ⟨none,
       some ⟨some (match msg with
         | some m => ErrMsg.exnMsg m
         | none => ErrMsg.unknownErr), none, none, 500⟩,
       false⟩

/-- `APIClient.get` (src/dashboard/app/lib/apiClient.ts lines 126-147). -/
def APIClient.get {T : Type} (endpoint : String) (f : FetchEval T) : ApiResponse T :=
  APIClient.request f

/-- `APIClient.post` (src/dashboard/app/lib/apiClient.ts lines 152-174);
the payload only feeds the fetch call already abstracted by `f`. -/
def APIClient.post {T : Type} (endpoint : String)
    (payload : List (String × String)) (f : FetchEval T) : ApiResponse T :=
  APIClient.request f

/-- `APIClient.put` (src/dashboard/app/lib/apiClient.ts lines 179-201). -/
def APIClient.put {T : Type} (endpoint : String)
    (payload : List (String × String)) (f : FetchEval T) : ApiResponse T :=
  APIClient.request f

/-- Helper: the BLOCK band is exactly confidence at or above blockThreshold. -/
theorem band_block_iff (cfg : Config) (c : ℚ) :
    DecisionEngine.band cfg c = .BLOCK ↔ cfg.blockThreshold ≤ c := by
  unfold DecisionEngine.band
  split_ifs with h1 h2
  · exact iff_of_true rfl h1
  · exact iff_of_false (by simp) h1
  · exact iff_of_false (by simp) h1

/-- Helper: the WARN band is exactly warnThreshold-to-blockThreshold, closed
below and open above. -/
theorem band_warn_iff (cfg : Config) (c : ℚ) :
    DecisionEngine.band cfg c = .WARN ↔ cfg.warnThreshold ≤ c ∧ c < cfg.blockThreshold := by
  unfold DecisionEngine.band
  split_ifs with h1 h2
  · exact iff_of_false (by simp) (fun hp => absurd h1 (not_le.mpr hp.2))
  · exact iff_of_true rfl ⟨h2, not_le.mp h1⟩
  · exact iff_of_false (by simp) (fun hp => h2 hp.1)

/-- Helper: with ordered thresholds the ALLOW band is exactly confidence
below warnThreshold. -/
theorem band_allow_iff (cfg : Config) (c : ℚ) (h : cfg.warnThreshold ≤ cfg.blockThreshold) :
    DecisionEngine.band cfg c = .ALLOW ↔ c < cfg.warnThreshold := by
  unfold DecisionEngine.band
  split_ifs with h1 h2
  · exact iff_of_false (by simp) (not_lt.mpr (h.trans h1))
  · exact iff_of_false (by simp) (not_lt.mpr h2)
  · exact iff_of_true rfl (not_le.mp h2)

/-- C1: for every confidence and every configuration with blockThreshold at
or above warnThreshold, the DecisionEngine returns BLOCK iff confidence is
at or above blockThreshold, WARN iff it lies in [warnThreshold,
blockThreshold), and ALLOW iff it is below warnThreshold; with the
configured warnThreshold 0.70 and blockThreshold 0.90, confidence 0.90 maps
to BLOCK, 0.70 to WARN, and 0.6999 to ALLOW, so a confidence exactly equal
to a threshold falls into the higher-severity band. -/
theorem decision_threshold_bands (cfg : Config) (c : ℚ)
    (h : cfg.warnThreshold ≤ cfg.blockThreshold) :
    ((DecisionEngine.band cfg c = .BLOCK ↔ cfg.blockThreshold ≤ c) ∧
     (DecisionEngine.band cfg c = .WARN ↔ cfg.warnThreshold ≤ c ∧ c < cfg.blockThreshold) ∧
     (DecisionEngine.band cfg c = .ALLOW ↔ c < cfg.warnThreshold)) ∧
    DecisionEngine.band mockConfig 0.90 = .BLOCK ∧
    DecisionEngine.band mockConfig 0.70 = .WARN ∧
    DecisionEngine.band mockConfig (0.6999 : ℚ) = .ALLOW := by
  refine ⟨⟨band_block_iff cfg c, band_warn_iff cfg c, band_allow_iff cfg c h⟩, ?_, ?_, ?_⟩
  · norm_num [DecisionEngine.band, mockConfig, mockSettings]
  · norm_num [DecisionEngine.band, mockConfig, mockSettings]
  · norm_num [DecisionEngine.band, mockConfig, mockSettings]

/-- Closed instance of C1 at the configured thresholds and confidence 0.76. -/
theorem decision_threshold_bands_witness :
    ((DecisionEngine.band mockConfig 0.76 = .BLOCK ↔ mockConfig.blockThreshold ≤ (0.76 : ℚ)) ∧
     (DecisionEngine.band mockConfig 0.76 = .WARN ↔
       mockConfig.warnThreshold ≤ (0.76 : ℚ) ∧ (0.76 : ℚ) < mockConfig.blockThreshold) ∧
     (DecisionEngine.band mockConfig 0.76 = .ALLOW ↔ (0.76 : ℚ) < mockConfig.warnThreshold)) ∧
    DecisionEngine.band mockConfig 0.90 = .BLOCK ∧
    DecisionEngine.band mockConfig 0.70 = .WARN ∧
    DecisionEngine.band mockConfig (0.6999 : ℚ) = .ALLOW :=
  decision_threshold_bands mockConfig 0.76 (by norm_num [mockConfig, mockSettings])

/-- Helper: without an EXACT Signal, scoring is the weighted sum. -/
theorem score_noExact (w : Weights) (s : Signals) (hx : s.exact = none) :
    ScoringEngine.score w s =
      w.fuzzy * optScore s.fuzzy + w.semantic * optScore s.semantic +
        w.size * optScore s.size := by
  unfold ScoringEngine.score
  rw [hx]

/-- Helper: without an EXACT Signal, the Decision is the banded weighted
sum with reason SCORED. -/
theorem decideFromSignals_noExact (cfg : Config) (w : Weights) (s : Signals)
    (hx : s.exact = none) :
    decideFromSignals cfg w s =
      ⟨ScoringEngine.score w s,
       DecisionEngine.band cfg (ScoringEngine.score w s), .SCORED⟩ := by
  unfold decideFromSignals
  rw [hx]

/-- Helper: replacing a weighted-method score leaves the EXACT slot
unchanged. -/
theorem setScore_exact (s : Signals) (m : WMethod) (v : ℚ) :
    (s.setScore m v).exact = s.exact := by
  cases m <;> rfl

/-- C2: whenever all collaborator method lookups are unreachable (as opposed
to reachable lookups returning no match) and no unexpired CacheEntry exists
for the Descriptor's key, the pipeline — a total function, so every request
yields a Decision rather than an exception — produces the fail-closed
Decision: BLOCK with reason BACKEND_UNREACHABLE, for every Descriptor. -/
theorem pipeline_fail_closed (cfg : Config) (w : Weights)
    (cache : Key → Option CacheEntry) (now : Nat) (d : Descriptor)
    (hc : ∀ e, cache (keyOf d) = some e → e.expiry ≤ now) :
    pipelineRun cfg w cache now d ⟨.unreachable, .unreachable, .unreachable⟩ = failClosed ∧
    failClosed.kind = .BLOCK ∧ failClosed.reason = .BACKEND_UNREACHABLE := by
  refine ⟨?_, rfl, rfl⟩
  unfold pipelineRun pipeline
  have hcond : allUnreachable ⟨.unreachable, .unreachable, .unreachable⟩ = true := rfl
  rw [hcond]
  simp only [if_true]
  cases hck : cache (keyOf d) with
  | none => rfl
  | some e =>
      show (if now < e.expiry then e.decision else failClosed) = failClosed
      rw [if_neg]
      exact not_lt.mpr (hc e hck)

/-- Closed instance of C2: empty cache, concrete Descriptor. -/
theorem pipeline_fail_closed_witness :
    pipelineRun mockConfig mockWeights (fun _ => none) 0 sampleDescriptor
      ⟨.unreachable, .unreachable, .unreachable⟩ = failClosed ∧
    failClosed.kind = .BLOCK ∧ failClosed.reason = .BACKEND_UNREACHABLE :=
  pipeline_fail_closed mockConfig mockWeights (fun _ => none) 0 sampleDescriptor
    (fun e h => Option.noConfusion h)

/-- C3: whenever a present EXACT Signal matches a Fingerprint, the
ScoringEngine returns confidence exactly 1.0, and the resulting Decision is
determined by the matched Fingerprint's stored classification alone: any
weights and any other Signal set whose EXACT match carries the same
classification produce the identical Decision, irrespective of fuzzy or
semantic scores. -/
theorem exact_short_circuit (cfg : Config) (w : Weights) (s : Signals)
    (fp : Fingerprint) (hx : s.exact = some fp) :
    ScoringEngine.score w s = 1 ∧
    decideFromSignals cfg w s = DecisionEngine.decideExact cfg fp.classification ∧
    (∀ w2 s2 fp2, s2.exact = some fp2 →
      fp2.classification = fp.classification →
      decideFromSignals cfg w2 s2 = decideFromSignals cfg w s) := by
  refine ⟨?_, ?_, ?_⟩
  · unfold ScoringEngine.score
    rw [hx]
  · unfold decideFromSignals
    rw [hx]
  · intro w2 s2 fp2 h2 hcl
    unfold decideFromSignals
    rw [hx, h2]
    show DecisionEngine.decideExact cfg fp2.classification =
      DecisionEngine.decideExact cfg fp.classification
    rw [hcl]

/-- Closed instance of C3 at a malicious exact match. -/
theorem exact_short_circuit_witness :
    ScoringEngine.score mockWeights sampleSignals = 1 ∧
    decideFromSignals mockConfig mockWeights sampleSignals =
      DecisionEngine.decideExact mockConfig sampleFingerprint.classification ∧
    (∀ w2 s2 fp2, s2.exact = some fp2 →
      fp2.classification = sampleFingerprint.classification →
      decideFromSignals mockConfig w2 s2 =
        decideFromSignals mockConfig mockWeights sampleSignals) :=
  exact_short_circuit mockConfig mockWeights sampleSignals sampleFingerprint rfl

/-- C4: with no EXACT Signal and validated (non-negative) weights, the
confidence is exactly the weighted sum of the present signals' scores,
absent signals contribute zero to the sum, and raising any one present
Signal's score while holding all others fixed never decreases the
confidence. -/
theorem weighted_sum_monotone (w : Weights) (s : Signals)
    (hw : w.valid) (hx : s.exact = none) :
    ScoringEngine.score w s =
      w.fuzzy * optScore s.fuzzy + w.semantic * optScore s.semantic +
        w.size * optScore s.size ∧
    (∀ m, s.getScore m = none → optScore (s.getScore m) = 0) ∧
    (∀ m v v2, s.getScore m = some v → v ≤ v2 →
      ScoringEngine.score w s ≤ ScoringEngine.score w (s.setScore m v2)) := by
  refine ⟨score_noExact w s hx, ?_, ?_⟩
  · intro m hm
    rw [hm]
    rfl
  · intro m v v2 hv hle
    have hx2 : (s.setScore m v2).exact = none := by rw [setScore_exact, hx]
    rw [score_noExact w s hx, score_noExact w _ hx2]
    cases m with
    | FUZZY =>
        simp only [Signals.getScore] at hv
        simp only [Signals.setScore, hv, optScore, Option.getD_some]
        have hm := mul_le_mul_of_nonneg_left hle hw.1
        linarith
    | SEMANTIC =>
        simp only [Signals.getScore] at hv
        simp only [Signals.setScore, hv, optScore, Option.getD_some]
        have hm := mul_le_mul_of_nonneg_left hle hw.2.1
        linarith
    | SIZE =>
        simp only [Signals.getScore] at hv
        simp only [Signals.setScore, hv, optScore, Option.getD_some]
        have hm := mul_le_mul_of_nonneg_left hle hw.2.2
        linarith

/-- Closed instance of C4 at the scenario weights and a fuzzy-and-size
Signal set. -/
theorem weighted_sum_monotone_witness :
    ScoringEngine.score mockWeights noExactSignals =
      mockWeights.fuzzy * optScore noExactSignals.fuzzy +
        mockWeights.semantic * optScore noExactSignals.semantic +
        mockWeights.size * optScore noExactSignals.size ∧
    (∀ m, noExactSignals.getScore m = none →
      optScore (noExactSignals.getScore m) = 0) ∧
    (∀ m v v2, noExactSignals.getScore m = some v → v ≤ v2 →
      ScoringEngine.score mockWeights noExactSignals ≤
        ScoringEngine.score mockWeights (noExactSignals.setScore m v2)) :=
  weighted_sum_monotone mockWeights noExactSignals
    (by refine ⟨?_, ?_, ?_⟩ <;> norm_num [mockWeights]) rfl

/-- C5: when all three methods are reachable and none returns a match, the
pipeline produces confidence exactly 0 and the Decision ALLOW (given
positive, ordered thresholds) — and this genuine zero-confidence no-match
outcome differs from the fail-closed backend-unreachable Decision. -/
theorem zero_signal_allow (cfg : Config) (w : Weights)
    (cache : Key → Option CacheEntry) (now : Nat) (d : Descriptor)
    (h1 : 0 < cfg.warnThreshold) (h2 : cfg.warnThreshold ≤ cfg.blockThreshold) :
    pipelineRun cfg w cache now d ⟨.noMatch, .noMatch, .noMatch⟩ =
      ⟨0, .ALLOW, .SCORED⟩ ∧
    (⟨0, .ALLOW, .SCORED⟩ : Decision) ≠ failClosed := by
  constructor
  · have hpipe : pipelineRun cfg w cache now d ⟨.noMatch, .noMatch, .noMatch⟩ =
        decideFromSignals cfg w (signalsOfOutcomes ⟨.noMatch, .noMatch, .noMatch⟩) := rfl
    have hxs : (signalsOfOutcomes ⟨.noMatch, .noMatch, .noMatch⟩).exact = none := rfl
    rw [hpipe, decideFromSignals_noExact cfg w _ hxs]
    have hsc : ScoringEngine.score w (signalsOfOutcomes ⟨.noMatch, .noMatch, .noMatch⟩) = 0 := by
      rw [score_noExact w _ hxs]
      show w.fuzzy * optScore none + w.semantic * optScore none + w.size * optScore none = 0
      simp [optScore]
    rw [hsc, (band_allow_iff cfg 0 h2).mpr h1]
  · intro hcontra
    exact absurd (congrArg Decision.kind hcontra) (by simp [failClosed])

/-- Closed instance of C5 at the configured thresholds. -/
theorem zero_signal_allow_witness :
    pipelineRun mockConfig mockWeights (fun _ => none) 0 sampleDescriptor
      ⟨.noMatch, .noMatch, .noMatch⟩ = ⟨0, .ALLOW, .SCORED⟩ ∧
    (⟨0, .ALLOW, .SCORED⟩ : Decision) ≠ failClosed :=
  zero_signal_allow mockConfig mockWeights (fun _ => none) 0 sampleDescriptor
    (by norm_num [mockConfig, mockSettings]) (by norm_num [mockConfig, mockSettings])

/-- C6: with weights {fuzzy 0.5, semantic 0.3, size 0.2} and present Signals
{fuzzy 0.9, semantic 0.5, size 0.8} the ScoringEngine returns confidence
exactly 0.76, and with warnThreshold 0.70 and blockThreshold 0.90 the
DecisionEngine maps 0.76 to WARN. -/
theorem end_to_end_scenario :
    ScoringEngine.score mockWeights ⟨none, some 0.9, some 0.5, some 0.8⟩ = 0.76 ∧
    DecisionEngine.band mockConfig 0.76 = .WARN := by
  constructor
  · norm_num [ScoringEngine.score, mockWeights, optScore]
  · norm_num [DecisionEngine.band, mockConfig, mockSettings]

/-- Helper: on a key with no cache entry and no in-flight computation, a
resolve start claims the computation — inflight becomes the singleton
waiter list and computeFn is invoked once. -/
theorem resolveStart_claim (now : Nat) (k : Key) (c : Nat) (s : CacheState)
    (h1 : s.entries k = none) (h2 : s.inflight k = none) :
    resolveStart now k c s =
      { s with
        inflight := fun k2 => if k2 = k then some [c] else s.inflight k2,
        computeCount := s.computeCount + 1 } := by
  unfold resolveStart claimOrJoin
  rw [h1, h2]

/-- Helper: on a key with no cache entry but an in-flight computation, a
resolve start joins the waiter list and invokes nothing. -/
theorem resolveStart_join (now : Nat) (k : Key) (c : Nat) (s : CacheState)
    (ws : List Nat) (h1 : s.entries k = none) (h2 : s.inflight k = some ws) :
    resolveStart now k c s =
      { s with
        inflight := fun k2 => if k2 = k then some (c :: ws) else s.inflight k2 } := by
  unfold resolveStart claimOrJoin
  rw [h1, h2]

/-- Helper: starting any list of callers against an uncached key with an
in-flight waiter list only grows that waiter list — entries and both
counters are untouched and every started caller ends up in the final
waiter list. -/
theorem startAll_joins (now : Nat) (k : Key) (cs : List Nat) :
    ∀ (s : CacheState) (ws : List Nat), s.entries k = none → s.inflight k = some ws →
      ∃ ws2, (startAll now k cs s).inflight k = some ws2 ∧
        (∀ x, x ∈ ws → x ∈ ws2) ∧ (∀ x, x ∈ cs → x ∈ ws2) ∧
        (startAll now k cs s).entries = s.entries ∧
        (startAll now k cs s).computeCount = s.computeCount ∧
        (startAll now k cs s).auditCount = s.auditCount := by
  induction cs with
  | nil =>
      intro s ws h1 h2
      exact ⟨ws, h2, fun x hx => hx, fun x hx => absurd hx (List.not_mem_nil x),
        rfl, rfl, rfl⟩
  | cons c cs ih =>
      intro s ws h1 h2
      have hfold : startAll now k (c :: cs) s =
          startAll now k cs (resolveStart now k c s) := rfl
      rw [hfold, resolveStart_join now k c s ws h1 h2]
      obtain ⟨ws2, ha, hb, hc2, hd, he, hf⟩ :=
        ih { s with
              inflight := fun k2 => if k2 = k then some (c :: ws) else s.inflight k2 }
          (c :: ws) h1 (by simp)
      refine ⟨ws2, ha, fun x hx => hb x (List.mem_cons_of_mem c hx), ?_, hd, he, hf⟩
      intro x hx
      rcases List.mem_cons.mp hx with heq | hmem
      · subst heq
        exact hb x (List.mem_cons_self x ws)
      · exact hc2 x hmem

/-- Helper: completing the in-flight computation delivers the Decision to
every waiter, appends one audit record, and invokes nothing further. -/
theorem resolveComplete_spec (after ttl : Nat) (k : Key) (d : Decision)
    (s : CacheState) (ws : List Nat) (h : s.inflight k = some ws) :
    (resolveComplete after ttl k d s).computeCount = s.computeCount ∧
    (resolveComplete after ttl k d s).auditCount = s.auditCount + 1 ∧
    (∀ c, c ∈ ws → (resolveComplete after ttl k d s).results c = some d) := by
  unfold resolveComplete
  rw [h]
  refine ⟨rfl, rfl, ?_⟩
  intro c hcw
  show (if c ∈ ws then some d else s.results c) = some d
  rw [if_pos hcw]

/-- C7: for every nonempty batch of concurrent resolve callers for one
identical key holding no unexpired CacheEntry and no in-flight computation,
running all the starts (in any interleaving order) followed by the single
completion invokes computeFn exactly once (one MatchOrchestrator run),
appends exactly one audit record, and delivers that same single computed
Decision to every one of the callers. -/
theorem cache_coalescing (now after ttl : Nat) (k : Key) (d : Decision)
    (c0 : Nat) (cs : List Nat) (s : CacheState)
    (h1 : s.entries k = none) (h2 : s.inflight k = none) :
    (resolveComplete after ttl k d (startAll now k (c0 :: cs) s)).computeCount =
      s.computeCount + 1 ∧
    (resolveComplete after ttl k d (startAll now k (c0 :: cs) s)).auditCount =
      s.auditCount + 1 ∧
    (∀ c, c ∈ c0 :: cs →
      (resolveComplete after ttl k d (startAll now k (c0 :: cs) s)).results c =
        some d) := by
  have hfold : startAll now k (c0 :: cs) s =
      startAll now k cs (resolveStart now k c0 s) := rfl
  rw [hfold, resolveStart_claim now k c0 s h1 h2]
  obtain ⟨ws2, ha, hb, hc2, hd, he, hf⟩ :=
    startAll_joins now k cs
      { s with
        inflight := fun k2 => if k2 = k then some [c0] else s.inflight k2,
        computeCount := s.computeCount + 1 }
      [c0] h1 (by simp)
  obtain ⟨hcc, haud, hres⟩ := resolveComplete_spec after ttl k d _ ws2 ha
  refine ⟨?_, ?_, ?_⟩
  · rw [hcc, he]
  · rw [haud, hf]
  · intro c hcm
    rcases List.mem_cons.mp hcm with heq | hmem
    · subst heq
      exact hres c (hb c (List.mem_cons_self c []))
    · exact hres c (hc2 c hmem)

/-- Closed instance of C7: three concurrent callers on a fresh cache. -/
theorem cache_coalescing_witness :
    (resolveComplete 10 3600 ⟨0, 0⟩ sampleDecision
        (startAll 0 ⟨0, 0⟩ [1, 2, 3] emptyCacheState)).computeCount =
      emptyCacheState.computeCount + 1 ∧
    (resolveComplete 10 3600 ⟨0, 0⟩ sampleDecision
        (startAll 0 ⟨0, 0⟩ [1, 2, 3] emptyCacheState)).auditCount =
      emptyCacheState.auditCount + 1 ∧
    (∀ c, c ∈ [1, 2, 3] →
      (resolveComplete 10 3600 ⟨0, 0⟩ sampleDecision
          (startAll 0 ⟨0, 0⟩ [1, 2, 3] emptyCacheState)).results c =
        some sampleDecision) :=
  cache_coalescing 0 10 3600 ⟨0, 0⟩ sampleDecision 1 [2, 3] emptyCacheState rfl rfl

/-- C8: a resolve against a key whose CacheEntry has not expired delivers
the stored Decision unchanged to the caller and invokes computeFn not at
all — no computation runs, no audit record is appended, and the cache
entries and in-flight table are left exactly as they were. -/
theorem cache_hit_frame (now : Nat) (k : Key) (caller : Nat) (s : CacheState)
    (e : CacheEntry) (h1 : s.entries k = some e) (h2 : now < e.expiry) :
    (resolveStart now k caller s).results caller = some e.decision ∧
    (resolveStart now k caller s).entries = s.entries ∧
    (resolveStart now k caller s).inflight = s.inflight ∧
    (resolveStart now k caller s).computeCount = s.computeCount ∧
    (resolveStart now k caller s).auditCount = s.auditCount := by
  have hstep : resolveStart now k caller s =
      { s with results := fun c => if c = caller then some e.decision else s.results c } := by
    unfold resolveStart
    rw [h1]
    show (if now < e.expiry then
        ({ s with results := fun c => if c = caller then some e.decision else s.results c } :
          CacheState)
      else claimOrJoin k caller s) =
      { s with results := fun c => if c = caller then some e.decision else s.results c }
    rw [if_pos h2]
  rw [hstep]
  refine ⟨?_, rfl, rfl, rfl, rfl⟩
  show (if caller = caller then some e.decision else s.results caller) = some e.decision
  rw [if_pos rfl]

/-- Closed instance of C8 on a cache holding a valid entry. -/
theorem cache_hit_frame_witness :
    (resolveStart 5 ⟨0, 0⟩ 7 hitCacheState).results 7 = some sampleEntry.decision ∧
    (resolveStart 5 ⟨0, 0⟩ 7 hitCacheState).entries = hitCacheState.entries ∧
    (resolveStart 5 ⟨0, 0⟩ 7 hitCacheState).inflight = hitCacheState.inflight ∧
    (resolveStart 5 ⟨0, 0⟩ 7 hitCacheState).computeCount = hitCacheState.computeCount ∧
    (resolveStart 5 ⟨0, 0⟩ 7 hitCacheState).auditCount = hitCacheState.auditCount :=
  cache_hit_frame 5 ⟨0, 0⟩ 7 hitCacheState sampleEntry rfl (by decide)

/-- Helper: every core operation leaves the existing audit log as an
untouched initial segment of the new log. -/
theorem applyOp_log_append (s : CoreState) (op : Op) :
    ∃ u, (applyOp s op).log = s.log ++ u := by
  cases op with
  | request d o now ttl =>
      exact ⟨[pipelineRun s.cfg s.weights s.cache now d o], rfl⟩
  | feedback hash0 cl => exact ⟨[], (List.append_nil s.log).symm⟩
  | setThresholds cfg2 => exact ⟨[], (List.append_nil s.log).symm⟩

/-- C9: a Decision is created exactly once per request — a request appends
exactly the one freshly computed Decision to the audit log — and is
immutable thereafter: a feedback override of a Fingerprint classification
and a change of the configured thresholds leave the log of already-created
Decisions identical, and any sequence of operations whatsoever extends the
log without modifying its existing entries, so corrections affect only
Decisions produced by future requests. -/
theorem decision_immutable (s : CoreState) (d : Descriptor) (o : Outcomes)
    (now ttl : Nat) (hash0 : Nat) (cl : Classification) (cfg2 : Config)
    (ops : List Op) :
    (applyOp s (.request d o now ttl)).log =
      s.log ++ [pipelineRun s.cfg s.weights s.cache now d o] ∧
    (applyOp s (.feedback hash0 cl)).log = s.log ∧
    (applyOp s (.setThresholds cfg2)).log = s.log ∧
    ∃ t, (ops.foldl applyOp s).log = s.log ++ t := by
  refine ⟨rfl, rfl, rfl, ?_⟩
  induction ops generalizing s with
  | nil => exact ⟨[], (List.append_nil s.log).symm⟩
  | cons op ops ih =>
      obtain ⟨t, ht⟩ := ih (applyOp s op)
      obtain ⟨u, hu⟩ := applyOp_log_append s op
      exact ⟨u ++ t, by rw [List.foldl_cons, ht, hu, List.append_assoc]⟩

/-- C10: the APIClient request methods never throw to their caller (they are
total functions of the observed fetch evaluation): every call produces an
ApiResponse with loading false in which exactly one of data and error is
non-null; a non-ok HTTP response yields an error carrying the response
status with data null, and a thrown fetch or parse exception yields an
error with status 500 and data null; post and put share get's handling. -/
theorem apiClient_total_and_exclusive {T : Type} (endpoint : String)
    (payload : List (String × String)) (f : FetchEval T) (status : Nat)
    (statusText : String) (body : Option ErrorBody) (msg : Option String) :
    (APIClient.get endpoint f).loading = false ∧
    ((APIClient.get endpoint f).data.isSome ↔ (APIClient.get endpoint f).error.isNone) ∧
    (APIClient.get endpoint (.errResp status statusText body) : ApiResponse T).data = none ∧
    ((APIClient.get endpoint (.errResp status statusText body) : ApiResponse T)).error.map
      ApiErrorResponse.status = some status ∧
    (APIClient.get endpoint (.threw msg) : ApiResponse T).data = none ∧
    (APIClient.get endpoint (.threw msg) : ApiResponse T).error.map
      ApiErrorResponse.status = some 500 ∧
    APIClient.post endpoint payload f = APIClient.get endpoint f ∧
    APIClient.put endpoint payload f = APIClient.get endpoint f := by
  refine ⟨?_, ?_, rfl, ?_, rfl, rfl, rfl, rfl⟩
  · cases f <;> rfl
  · cases f <;> simp [APIClient.get, APIClient.request]
  · simp only [APIClient.get, APIClient.request, APIClient.handleError]
    cases body <;> split_ifs <;> rfl

end DDAS
